import Mathlib

/-!
# Verification of the colstodian color-conversion core (`src/color/color_alpha.rs`)

Shallow embedding of the typed color-with-alpha container, its space/alpha
conversion pipeline, the alpha-state transforms, the blending engine and the
dynamic (runtime-tagged) bridge.

Modelling conventions:

* The `f32` scalar is modelled by `ℚ` (exact arithmetic).  Where a claim
  depends on actual IEEE-754 binary32 rounding (the u8 round trip), a faithful
  round-to-nearest-even model `round32 : ℚ → ℚ` of normal-range binary32
  rounding is used.  `ℚ` division by zero yields `0` where `f32` would yield
  `Inf`/`NaN`; every theorem touching that case is stated so that its truth
  value agrees with the `f32` behaviour (a result that is `0` in the model and
  `Inf`/`NaN` in `f32` is in both cases *not* equal to the original channels).
* `glam::Vec3` / `glam::Vec4` become the structures `Vec3` / `Vec4` below.
* The compile-time tags `Spc : ColorSpace` and `A : AlphaState` of
  `ColorAlpha<Spc, A>` are zero-sized phantom markers; operations dispatch on
  them only through the capability traits.  They are modelled by passing the
  relevant runtime data explicitly: the alpha tag as a `DynamicAlphaState`
  value, and the per-(Src,Dst)-pair space transforms as an explicit
  `Conversion` record of three `Vec3 → Vec3` stage functions (the external
  `ConvertFromRaw` / `kolor::ColorConversion` collaborators, which the core
  never inlines).
* The catalog of concrete color spaces is external to the core, so the type of
  runtime space tags is a parameter `Space` with decidable equality.
-/

/-- A 3-component vector of scalars, modelling `glam::Vec3`. -/
structure Vec3 where
  x : ℚ
  y : ℚ
  z : ℚ
deriving DecidableEq, Repr

/-- A 4-component vector of scalars, modelling `glam::Vec4`. -/
structure Vec4 where
  x : ℚ
  y : ℚ
  z : ℚ
  w : ℚ
deriving DecidableEq, Repr

/-- Rust `Vec4::xyz()` (glam swizzle): drop the fourth component. -/
def Vec4.xyz (v : Vec4) : Vec3 :=
  ⟨v.x, v.y, v.z⟩

/-- Rust `Vec3::extend(w)` (glam): append a fourth component. -/
def Vec3.extend (v : Vec3) (w : ℚ) : Vec4 :=
  ⟨v.x, v.y, v.z, w⟩

/-- Rust `Vec3 * f32` componentwise scalar multiplication (glam). -/
def Vec3.smul (v : Vec3) (a : ℚ) : Vec3 :=
  ⟨v.x * a, v.y * a, v.z * a⟩

/-- Rust `Vec3 / f32` componentwise scalar division (glam). -/
def Vec3.sdiv (v : Vec3) (a : ℚ) : Vec3 :=
  ⟨v.x / a, v.y / a, v.z / a⟩

/-- The two alpha states, `colstodian::DynamicAlphaState` (also standing for
the zero-sized typed tags `Separate` / `Premultiplied`, whose associated
`STATE` constants are these two values). -/
inductive DynamicAlphaState where
  | Separate
  | Premultiplied
deriving DecidableEq, Repr

/-- Modelled from the spec: the `AlphaState` capability (the
`ConvertToAlphaRaw`/`ConvertFromAlphaRaw` trait impls for
`Separate`/`Premultiplied`), which lives outside `src/`.  Per the spec,
Separate→Premultiplied multiplies the color channels by alpha and
Premultiplied→Separate divides by alpha; same-state conversion is the
identity.  The division is unconditional in the statically-typed path (the
doc comments of the code itself: "you must ensure that `self.alpha != 0.0`,
otherwise a divide by 0 will occur and `Inf`s will result"); in this exact model
division by zero yields `0` instead of `Inf`/`NaN`. -/
def alphaConvertRaw (src dst : DynamicAlphaState) (raw : Vec3) (alpha : ℚ) : Vec3 :=
  match src, dst with
  | .Separate, .Premultiplied => raw.smul alpha
  | .Premultiplied, .Separate => raw.sdiv alpha
  | _, _ => raw

/-- The three stage functions the conversion pipeline obtains from the
external space capability for a fixed (SrcSpace, DstSpace) pair: the
`ConvertFromRaw<SrcSpace>` impl on `DstSpace` in the typed path, and the
`kolor::ColorConversion` descriptor in the dynamic path. -/
structure Conversion where
  src_transform : Vec3 → Vec3
  linear_part : Vec3 → Vec3
  dst_transform : Vec3 → Vec3

/-- Modelled from the spec: for Src = Dst the three stages of the external space
capability are the identity ("some space pairs share shortcuts, e.g.
same-space is identity"). -/
def idConversion : Conversion :=
  ⟨id, id, id⟩

/-- Rust `ColorAlpha<Spc, A>`: the raw 4-component value; the two phantom tags are
passed explicitly to each operation (see module docs). -/
structure ColorAlpha where
  raw : Vec4
deriving DecidableEq, Repr

/-- Rust `ColorAlpha::from_raw`. -/
def ColorAlpha.from_raw (raw : Vec4) : ColorAlpha :=
  ⟨raw⟩

/-- Rust `ColorAlpha::new(el1, el2, el3, alpha)`. -/
def ColorAlpha.new (el1 el2 el3 alpha : ℚ) : ColorAlpha :=
  ColorAlpha.from_raw ⟨el1, el2, el3, alpha⟩

/-- Rust `ColorAlpha::convert::<DstSpace, DstAlpha>` (src lines 90–108): the
five-stage pipeline.  `conv` is the `ConvertFromRaw<SrcSpace>` capability of
`DstSpace`; `srcAlpha`/`dstAlpha` are the `STATE`s of the `SrcAlpha`/`DstAlpha`
tags.  Stage 2 is `<SrcAlpha as ConvertToAlphaRaw<Separate>>::convert_raw`,
stage 4 is `<DstAlpha as ConvertFromAlphaRaw<Separate>>::convert_raw`. -/
def ColorAlpha.convert (conv : Conversion) (srcAlpha dstAlpha : DynamicAlphaState)
    (c : ColorAlpha) : ColorAlpha :=
  let alpha := c.raw.w
  let linear := conv.src_transform c.raw.xyz
  let separate := alphaConvertRaw srcAlpha .Separate linear alpha
  let dst_linear := conv.linear_part separate
  let dst_alpha := alphaConvertRaw .Separate dstAlpha dst_linear alpha
  let dst := conv.dst_transform dst_alpha
  ColorAlpha.from_raw (dst.extend alpha)

/-- Rust `ColorAlpha::convert_alpha::<DstAlpha>` (src lines 136–143). -/
def ColorAlpha.convert_alpha (srcAlpha dstAlpha : DynamicAlphaState)
    (c : ColorAlpha) : ColorAlpha :=
  let raw := c.raw.xyz
  let alpha := c.raw.w
  let converted := alphaConvertRaw srcAlpha dstAlpha raw alpha
  ColorAlpha.from_raw (converted.extend alpha)

/-- Rust `ColorAlpha::premultiply` (src lines 222–227): `<Premultiplied as
ConvertFromAlphaRaw<A>>::convert_raw` on the color part, alpha re-attached. -/
def ColorAlpha.premultiply (srcAlpha : DynamicAlphaState) (c : ColorAlpha) : ColorAlpha :=
  let raw := c.raw.xyz
  let alpha := c.raw.w
  let converted := alphaConvertRaw srcAlpha .Premultiplied raw alpha
  ColorAlpha.from_raw (converted.extend alpha)

/-- Rust `ColorAlpha::separate` (src lines 238–243). -/
def ColorAlpha.separate (srcAlpha : DynamicAlphaState) (c : ColorAlpha) : ColorAlpha :=
  let raw := c.raw.xyz
  let alpha := c.raw.w
  let converted := alphaConvertRaw srcAlpha .Separate raw alpha
  ColorAlpha.from_raw (converted.extend alpha)

/-- Rust `ColorAlpha::blend_with::<Blender>` (src lines 186–198): the pluggable
`ColorBlender` is an arbitrary per-channel function `blender` with parameter
bundle type `P`; applied to the three color channels only, while the
alpha of the first operand is re-attached. -/
def ColorAlpha.blend_with {P : Type} (blender : ℚ → ℚ → ℚ → P → ℚ)
    (c other : ColorAlpha) (factor : ℚ) (params : P) : ColorAlpha :=
  let raw1 := c.raw
  let raw2 := other.raw
  let x := blender raw1.x raw2.x factor params
  let y := blender raw1.y raw2.y factor params
  let z := blender raw1.z raw2.z factor params
  ColorAlpha.from_raw ⟨x, y, z, raw1.w⟩

/-- Rust `ColorAlpha::blend::<Blender>` (src lines 168–174): `blend_with` at the
`Default::default()` parameters of the blender, modelled by an explicit `dflt`. -/
def ColorAlpha.blend {P : Type} (blender : ℚ → ℚ → ℚ → P → ℚ) (dflt : P)
    (c other : ColorAlpha) (factor : ℚ) : ColorAlpha :=
  ColorAlpha.blend_with blender c other factor dflt

/-- Rust `ColorAlpha::blend_alpha_with::<Blender>` (src lines 201–214): also blends
the alpha channel. -/
def ColorAlpha.blend_alpha_with {P : Type} (blender : ℚ → ℚ → ℚ → P → ℚ)
    (c other : ColorAlpha) (factor : ℚ) (params : P) : ColorAlpha :=
  let raw1 := c.raw
  let raw2 := other.raw
  let x := blender raw1.x raw2.x factor params
  let y := blender raw1.y raw2.y factor params
  let z := blender raw1.z raw2.z factor params
  let a := blender raw1.w raw2.w factor params
  ColorAlpha.from_raw ⟨x, y, z, a⟩

/-- Rust `ColorAlpha::blend_alpha::<Blender>` (src lines 177–183). -/
def ColorAlpha.blend_alpha {P : Type} (blender : ℚ → ℚ → ℚ → P → ℚ) (dflt : P)
    (c other : ColorAlpha) (factor : ℚ) : ColorAlpha :=
  ColorAlpha.blend_alpha_with blender c other factor dflt

/-- Rust `colstodian::DynamicState` (runtime state tag of a `DynamicColor`). -/
inductive DynamicState where
  | Scene
  | Display
deriving DecidableEq, Repr

/-- Rust `Color<Spc, Display>`: alpha-stripped typed color (raw 3-vector; tags
phantom as for `ColorAlpha`). -/
structure Color where
  raw : Vec3
deriving DecidableEq, Repr

/-- Rust `Color::from_raw`. -/
def Color.from_raw (raw : Vec3) : Color :=
  ⟨raw⟩

/-- Rust `ColorAlpha::into_color` (src lines 296–302): premultiplies first exactly
when `Spc::SPACE != Spc::LinearSpace::SPACE`; the two `DynamicColorSpace`
constants of the tag are passed as `spc` / `linearSpc`. -/
def ColorAlpha.into_color {Space : Type} [DecidableEq Space]
    (spc linearSpc : Space) (srcAlpha : DynamicAlphaState) (c : ColorAlpha) : Color :=
  if spc ≠ linearSpc then
    Color.from_raw (c.convert_alpha srcAlpha .Premultiplied).raw.xyz
  else
    Color.from_raw c.raw.xyz

/-- Rust `ColorAlpha::into_color_no_premultiply` (src lines 283–285). -/
def ColorAlpha.into_color_no_premultiply (c : ColorAlpha) : Color :=
  Color.from_raw c.raw.xyz

/-- Rust `DynamicColor`: runtime-tagged alpha-stripped color (`Space` is the
external runtime space-tag type). -/
structure DynamicColor (Space : Type) where
  raw : Vec3
  space : Space
  state : DynamicState
deriving DecidableEq, Repr

/-- Rust `DynamicColor::new`. -/
def DynamicColor.new {Space : Type} (raw : Vec3) (space : Space)
    (state : DynamicState) : DynamicColor Space :=
  ⟨raw, space, state⟩

/-- Rust `DynamicColorAlpha` (src lines 435–441): raw 4-vector plus runtime space
and alpha-state tags as data. -/
structure DynamicColorAlpha (Space : Type) where
  raw : Vec4
  space : Space
  alpha_state : DynamicAlphaState
deriving DecidableEq, Repr

/-- Rust `DynamicColorAlpha::new`. -/
def DynamicColorAlpha.new {Space : Type} (raw : Vec4) (space : Space)
    (alpha_state : DynamicAlphaState) : DynamicColorAlpha Space :=
  ⟨raw, space, alpha_state⟩

/-- Rust `DynamicColorAlpha::convert_alpha_state` (src lines 508–528): multiply by
alpha for Separate→Premultiplied, divide for Premultiplied→Separate guarded by
`self.raw.w != 0.0` (zero alpha leaves the color channels unchanged), identity
otherwise; the result carries `dst_alpha` as its alpha state. -/
def DynamicColorAlpha.convert_alpha_state {Space : Type}
    (c : DynamicColorAlpha Space) (dst_alpha : DynamicAlphaState) : DynamicColorAlpha Space :=
  let col :=
    match c.alpha_state, dst_alpha with
    | .Separate, .Premultiplied => c.raw.xyz.smul c.raw.w
    | .Premultiplied, .Separate =>
        if c.raw.w ≠ 0 then c.raw.xyz.sdiv c.raw.w else c.raw.xyz
    | _, _ => c.raw.xyz
  { raw := col.extend c.raw.w
    space := c.space
    alpha_state := dst_alpha }

/-- Rust `DynamicColorAlpha::convert` (src lines 470–490): builds the
`kolor::ColorConversion` descriptor from `(self.space, dst_space)` (the
external lookup is the parameter `kolorConversion`), then runs the five
stages.  NOTE (faithful to the source): each of the three raw-vector stage
updates is `conversion.apply_*(self.raw.xyz()).extend(1.0)` — the alpha slot
is overwritten with `1.0`, not threaded through. -/
def DynamicColorAlpha.convert {Space : Type}
    (kolorConversion : Space → Space → Conversion)
    (c : DynamicColorAlpha Space)
    (dst_space : Space) (dst_alpha : DynamicAlphaState) : DynamicColorAlpha Space :=
  let conversion := kolorConversion c.space dst_space
  -- linearize
  let c := { c with raw := (conversion.src_transform c.raw.xyz).extend 1 }
  -- separate
  let c := c.convert_alpha_state .Separate
  -- linear color conversion
  let c := { c with raw := (conversion.linear_part c.raw.xyz).extend 1 }
  -- convert to dst alpha state
  let c := c.convert_alpha_state dst_alpha
  -- dst transform
  let c := { c with raw := (conversion.dst_transform c.raw.xyz).extend 1 }
  let c := { c with space := dst_space }
  c

/-- Rust `DynamicColorAlpha::into_color` (src lines 455–458). -/
def DynamicColorAlpha.into_color {Space : Type}
    (c : DynamicColorAlpha Space) : DynamicColor Space :=
  let color_alpha := c.convert_alpha_state .Premultiplied
  DynamicColor.new color_alpha.raw.xyz c.space .Display

/-- Rust `DynamicColorAlpha::into_color_no_premultiply` (src lines 462–464). -/
def DynamicColorAlpha.into_color_no_premultiply {Space : Type}
    (c : DynamicColorAlpha Space) : DynamicColor Space :=
  DynamicColor.new c.raw.xyz c.space .Display

/-- Rust `DowncastError` (carrying found and expected tags, as in
`DowncastError::MismatchedSpace(self.space(), Spc::SPACE)`). -/
inductive DowncastError (Space : Type) where
  | MismatchedSpace (found expected : Space)
  | MismatchedAlphaState (found expected : DynamicAlphaState)
deriving DecidableEq

/-- Rust `DynColorAlpha::downcast::<Spc, A>` (src lines 540–550) on a runtime-tagged
value (`AnyColorAlpha` exposes exactly the `raw`/`space`/`alpha_state` fields
a `DynamicColorAlpha` carries): space check first, then alpha-state check,
else `Ok` of the raw vector reinterpreted.  `spc`/`a` are `Spc::SPACE` and
`A::STATE`; the `ColorResult` wrapper around `DowncastError` is modelled by
`Except` directly. -/
def DynamicColorAlpha.downcast {Space : Type} [DecidableEq Space]
    (c : DynamicColorAlpha Space) (spc : Space) (a : DynamicAlphaState) :
    Except (DowncastError Space) ColorAlpha :=
  if c.space ≠ spc then
    .error (.MismatchedSpace c.space spc)
  else if c.alpha_state ≠ a then
    .error (.MismatchedAlphaState c.alpha_state a)
  else
    .ok (ColorAlpha.from_raw c.raw)

/-- Rust `DynamicColorAlpha::downcast_convert::<DstSpace, DstAlpha>` (src lines
494–501): convert to `(DstSpace::SPACE, DstAlpha::STATE)`, then reinterpret
the raw vector (total — no checked downcast is even performed). -/
def DynamicColorAlpha.downcast_convert {Space : Type}
    (kolorConversion : Space → Space → Conversion)
    (c : DynamicColorAlpha Space)
    (dst_space : Space) (dst_alpha : DynamicAlphaState) : ColorAlpha :=
  let dst := c.convert kolorConversion dst_space dst_alpha
  ColorAlpha.from_raw dst.raw

/-!
## A kernel-computable model of IEEE-754 binary32 rounding

The u8 encode/decode claims depend on actual `f32` rounding, so the relevant
operations are modelled exactly: a binary32 value in the normal range is the
rational `± m · 2^(e-23)` with `2^23 ≤ m < 2^24`, and every arithmetic result
is rounded to the nearest such rational, ties to even significand.  All
computations below work on the numerator/denominator of the exact rational so
that concrete instances evaluate inside the kernel. -/

/-- Floor of log base 2 by repeated halving with explicit fuel (64 suffices for every
value arising here; equals `0` at `n = 0`). -/
def log2fuel : ℕ → ℕ → ℕ
  | 0, _ => 0
  | fuel + 1, n => if 2 ≤ n then log2fuel fuel (n / 2) + 1 else 0

/-- Floor of log base 2, total on `n < 2^64`. -/
def log2n (n : ℕ) : ℕ :=
  log2fuel 64 n

/-- Whether the positive rational `n / d` is strictly below `2 ^ e`. -/
def ratLtPow2 (n d : ℕ) (e : ℤ) : Bool :=
  if 0 ≤ e then n < d * 2 ^ e.toNat else n * 2 ^ (-e).toNat < d

/-- Round the nonnegative rational `n / d` (with `d ≠ 0`) to the nearest
natural number, ties to even. -/
def rheN (n d : ℕ) : ℕ :=
  let q := n / d
  let r := n % d
  if 2 * r < d then q
  else if d < 2 * r then q + 1
  else if q % 2 = 0 then q else q + 1

/-- IEEE-754 binary32 round-to-nearest-even on exact rationals (normal range;
subnormal/overflow handling never arises in the claims).  The significand
width is 24 bits, so the result is the nearest `± m · 2^(e-23)` with
`2^23 ≤ m ≤ 2^24` where `2^e ≤ |q| < 2^(e+1)`. -/
def round32 (q : ℚ) : ℚ :=
  if q.num = 0 then 0 else
  let n := q.num.natAbs
  let d := q.den
  let e0 : ℤ := (log2n n : ℤ) - (log2n d : ℤ)
  -- `2^(e0-1) < n/d < 2^(e0+1)`, so the true binade exponent is `e0` or `e0 - 1`
  let e : ℤ := if ratLtPow2 n d e0 then e0 - 1 else e0
  let s : ℤ := 23 - e
  let m : ℕ := if 0 ≤ s then rheN (n * 2 ^ s.toNat) d else rheN n (d * 2 ^ (-s).toNat)
  let sgn : ℤ := if q.num < 0 then -1 else 1
  if 0 ≤ s then mkRat (sgn * m) (2 ^ s.toNat) else mkRat (sgn * m * 2 ^ (-s).toNat) 1

/-- Rust `f32::round()`: round half away from zero.  Computed as
`⌊q + 1/2⌋` for `q ≥ 0` and symmetrically for `q < 0`; the results arising
here are small integers, hence exactly representable in `f32`. -/
def rustRound (q : ℚ) : ℚ :=
  if 0 ≤ q.num then mkRat ((2 * q.num + q.den) / (2 * q.den : ℤ)) 1
  else mkRat (-((2 * (-q.num) + q.den) / (2 * q.den : ℤ))) 1

/-- Rust `as u8` on an `f32`: truncate toward zero, saturating into
`[0, 255]` (NaN, which maps to `0`, does not arise in the claims). -/
def f32AsU8 (q : ℚ) : ℕ :=
  if q.num < 0 then 0
  else if 255 * (q.den : ℤ) < q.num then 255
  else (q.num / (q.den : ℤ)).toNat

/-- Rust `f32_to_u8` inside `ColorAlpha::to_u8` (src lines 308–310):
`(x * 255.0).round() as u8`; the multiplication `x * 255.0` (computed here as
`mkRat (255·num) den`, the exact product) is rounded per binary32. -/
def f32_to_u8 (x : ℚ) : ℕ :=
  f32AsU8 (rustRound (round32 (mkRat (x.num * 255) x.den)))

/-- Rust `u8_to_f32` inside `ColorAlpha::from_u8` (src lines 321–323):
`x as f32 / 255.0` (`x as f32` is exact for `x ≤ 255`; the exact
value of the division `x / 255` is rounded per binary32). -/
def u8_to_f32 (x : ℕ) : ℚ :=
  round32 (mkRat x 255)

/-- Rust `ColorAlpha::to_u8` (src lines 307–317). -/
def ColorAlpha.to_u8 (c : ColorAlpha) : ℕ × ℕ × ℕ × ℕ :=
  (f32_to_u8 c.raw.x, f32_to_u8 c.raw.y, f32_to_u8 c.raw.z, f32_to_u8 c.raw.w)

/-- Rust `ColorAlpha::from_u8` (src lines 320–330). -/
def ColorAlpha.from_u8 (encoded : ℕ × ℕ × ℕ × ℕ) : ColorAlpha :=
  ColorAlpha.new (u8_to_f32 encoded.1) (u8_to_f32 encoded.2.1)
    (u8_to_f32 encoded.2.2.1) (u8_to_f32 encoded.2.2.2)

/-!
## Theorems for the claims
-/

set_option maxRecDepth 16000 in
/-- Helper: the per-channel u8 round trip, checked exhaustively over all 256
byte values under the binary32 rounding model. -/
theorem u8_roundtrip_chan : ∀ x : Fin 256, f32_to_u8 (u8_to_f32 x.val) = x.val := by
  decide

/-- C1: the typed `ColorAlpha::convert` returns a value whose alpha component
equals the input `raw.w` for every conversion descriptor, source/destination
alpha state and input (first conjunct).  The claim FAILS for
`DynamicColorAlpha::convert`: every pipeline stage overwrites the alpha slot
with `1.0`, so the result alpha is always `1.0` (second conjunct), and in
particular at the concrete failing input with alpha `5` the result alpha is
not `5` (third conjunct) — the code contradicts the documented
alpha-passthrough policy of the pipeline. -/
theorem convert_alpha_passthrough_status :
    (∀ (conv : Conversion) (sA dA : DynamicAlphaState) (c : ColorAlpha),
      (c.convert conv sA dA).raw.w = c.raw.w)
    ∧ (∀ (Space : Type) (k : Space → Space → Conversion)
        (c : DynamicColorAlpha Space) (ds : Space) (da : DynamicAlphaState),
        (c.convert k ds da).raw.w = 1)
    ∧ ((DynamicColorAlpha.new ⟨2, 3, 4, 5⟩ (0 : ℕ) .Separate).convert
        (fun _ _ => idConversion) 0 .Separate).raw.w ≠ 5 := by
  refine ⟨fun conv sA dA c => rfl, fun Space k c ds da => rfl, by decide⟩

/-- C2: converting a Premultiplied `DynamicColorAlpha` with alpha channel `0`
to the Separate alpha state leaves the whole raw vector (in particular the
three color channels) unchanged — no division happens on this branch, hence
no `Inf`/`NaN` — and tags the result with the Separate alpha state. -/
theorem convert_alpha_state_zero_alpha {Space : Type} (c : DynamicColorAlpha Space)
    (h1 : c.alpha_state = .Premultiplied) (h2 : c.raw.w = 0) :
    (c.convert_alpha_state .Separate).raw = c.raw
    ∧ (c.convert_alpha_state .Separate).alpha_state = .Separate := by
  obtain ⟨⟨x, y, z, w⟩, space, st⟩ := c
  simp only at h1 h2
  subst h1 h2
  simp [DynamicColorAlpha.convert_alpha_state, Vec4.xyz, Vec3.extend]

/-- C2 witness: the theorem applied at the concrete Premultiplied input
`(2, 3, 4, 0)`. -/
theorem convert_alpha_state_zero_alpha_witness :
    ((DynamicColorAlpha.new ⟨2, 3, 4, 0⟩ (0 : ℕ) .Premultiplied).convert_alpha_state
        .Separate).raw = ⟨2, 3, 4, 0⟩
    ∧ ((DynamicColorAlpha.new ⟨2, 3, 4, 0⟩ (0 : ℕ) .Premultiplied).convert_alpha_state
        .Separate).alpha_state = .Separate :=
  convert_alpha_state_zero_alpha (DynamicColorAlpha.new ⟨2, 3, 4, 0⟩ (0 : ℕ) .Premultiplied)
    rfl rfl

/-- C3: the checked downcast fails with `MismatchedSpace` (carrying the found
and expected space tags) when the stored space differs from the target, fails
with `MismatchedAlphaState` when the space matches but the alpha state
differs, and otherwise succeeds with exactly the stored raw vector. -/
theorem downcast_contract {Space : Type} [DecidableEq Space]
    (c : DynamicColorAlpha Space) (spc : Space) (a : DynamicAlphaState) :
    (c.space ≠ spc → c.downcast spc a = .error (.MismatchedSpace c.space spc))
    ∧ (c.space = spc → c.alpha_state ≠ a →
        c.downcast spc a = .error (.MismatchedAlphaState c.alpha_state a))
    ∧ (c.space = spc → c.alpha_state = a →
        c.downcast spc a = .ok (ColorAlpha.from_raw c.raw)) := by
  refine ⟨fun h => ?_, fun h1 h2 => ?_, fun h1 h2 => ?_⟩ <;>
    simp [DynamicColorAlpha.downcast, *]

/-- C3 witness: the three contract cases at concrete inputs (space tags are
natural numbers; the stored tag is `0`). -/
theorem downcast_contract_witness :
    ((DynamicColorAlpha.new ⟨1, 2, 3, 4⟩ (0 : ℕ) .Separate).downcast 1 .Separate
        = .error (.MismatchedSpace 0 1))
    ∧ ((DynamicColorAlpha.new ⟨1, 2, 3, 4⟩ (0 : ℕ) .Separate).downcast 0 .Premultiplied
        = .error (.MismatchedAlphaState .Separate .Premultiplied))
    ∧ ((DynamicColorAlpha.new ⟨1, 2, 3, 4⟩ (0 : ℕ) .Separate).downcast 0 .Separate
        = .ok (ColorAlpha.from_raw ⟨1, 2, 3, 4⟩)) :=
  ⟨(downcast_contract _ 1 .Separate).1 (by decide),
   (downcast_contract _ 0 .Premultiplied).2.1 rfl (by decide),
   (downcast_contract _ 0 .Separate).2.2 rfl rfl⟩

/-- C4 counterexample: with source space equal to destination space (the
spec-modelled identity stage functions) and source alpha state equal to
destination alpha state `Premultiplied`, the input `(1, 1, 1, 0)` is NOT
mapped to itself within tolerance `1e-6`: the pipeline divides the color
channels by the zero alpha and multiplies back, producing `0` in this exact
model (`Inf · 0 = NaN` in `f32` — in both semantics the first channel is not
within `1e-6` of the original `1`). -/
theorem convert_roundtrip_counterexample :
    ¬ |((ColorAlpha.from_raw ⟨1, 1, 1, 0⟩).convert idConversion .Premultiplied
          .Premultiplied).raw.x - 1| ≤ 1 / 1000000 := by
  norm_num [ColorAlpha.convert, ColorAlpha.from_raw, idConversion, alphaConvertRaw,
    Vec3.sdiv, Vec3.smul, Vec4.xyz, Vec3.extend]

/-- C4 (amended): for Src space = Dst space (identity stage functions) and
SrcAlpha = DstAlpha, the five-stage pipeline maps every value to itself — for
the Separate alpha state unconditionally, and for the Premultiplied alpha
state provided the alpha channel is nonzero; the result is exact (hence in
particular within any floating-point tolerance). -/
theorem convert_same_space_state_roundtrip (sA : DynamicAlphaState) (c : ColorAlpha)
    (h : sA = .Premultiplied → c.raw.w ≠ 0) :
    c.convert idConversion sA sA = c := by
  obtain ⟨⟨x, y, z, w⟩⟩ := c
  cases sA with
  | Separate => rfl
  | Premultiplied =>
    have hw : w ≠ 0 := h rfl
    simp only [ColorAlpha.convert, ColorAlpha.from_raw, idConversion, alphaConvertRaw,
      Vec3.sdiv, Vec3.smul, Vec4.xyz, Vec3.extend, id]
    congr 2 <;> exact div_mul_cancel₀ _ hw

/-- C4 witness: the amended round trip at the concrete Premultiplied value
`(2, 3, 4, 5)` (nonzero alpha). -/
theorem convert_same_space_state_roundtrip_witness :
    (ColorAlpha.from_raw ⟨2, 3, 4, 5⟩).convert idConversion .Premultiplied .Premultiplied
      = ColorAlpha.from_raw ⟨2, 3, 4, 5⟩ :=
  convert_same_space_state_roundtrip .Premultiplied (ColorAlpha.from_raw ⟨2, 3, 4, 5⟩)
    (fun _ => by decide)

/-- C5: premultiplying a Separate value multiplies each color channel by the
alpha channel and leaves alpha itself unchanged — exactly, in this
exact-arithmetic model — both for the typed `premultiply` (whose
Separate→Premultiplied capability is spec-modelled) and for the dynamic
`convert_alpha_state(Premultiplied)` from the source, which moreover tags the
result Premultiplied. -/
theorem premultiply_scales_channels {Space : Type}
    (c : ColorAlpha) (d : DynamicColorAlpha Space) (h : d.alpha_state = .Separate) :
    (c.premultiply .Separate).raw
      = ⟨c.raw.x * c.raw.w, c.raw.y * c.raw.w, c.raw.z * c.raw.w, c.raw.w⟩
    ∧ (d.convert_alpha_state .Premultiplied).raw
      = ⟨d.raw.x * d.raw.w, d.raw.y * d.raw.w, d.raw.z * d.raw.w, d.raw.w⟩
    ∧ (d.convert_alpha_state .Premultiplied).alpha_state = .Premultiplied := by
  obtain ⟨⟨x, y, z, w⟩, sp, st⟩ := d
  simp only at h
  subst h
  exact ⟨rfl, rfl, rfl⟩

/-- C5 witness: the theorem at the concrete Separate value `(2, 3, 4, 5)` in
both the typed and the dynamic representation. -/
theorem premultiply_scales_channels_witness :
    ((ColorAlpha.from_raw ⟨2, 3, 4, 5⟩).premultiply .Separate).raw
      = ⟨2 * 5, 3 * 5, 4 * 5, 5⟩
    ∧ ((DynamicColorAlpha.new ⟨2, 3, 4, 5⟩ (0 : ℕ) .Separate).convert_alpha_state
        .Premultiplied).raw = ⟨2 * 5, 3 * 5, 4 * 5, 5⟩
    ∧ ((DynamicColorAlpha.new ⟨2, 3, 4, 5⟩ (0 : ℕ) .Separate).convert_alpha_state
        .Premultiplied).alpha_state = .Premultiplied :=
  premultiply_scales_channels (ColorAlpha.from_raw ⟨2, 3, 4, 5⟩)
    (DynamicColorAlpha.new ⟨2, 3, 4, 5⟩ (0 : ℕ) .Separate) rfl

/-- C6: for every 4-tuple of bytes, `from_u8` followed by `to_u8` reproduces
the bytes exactly, under the exact model of binary32 rounding (`x as f32 /
255.0` on decode, `round(x * 255.0) as u8` on encode). -/
theorem from_u8_to_u8_roundtrip (r g b a : Fin 256) :
    (ColorAlpha.from_u8 (r.val, g.val, b.val, a.val)).to_u8
      = (r.val, g.val, b.val, a.val) := by
  show (f32_to_u8 (u8_to_f32 r.val), f32_to_u8 (u8_to_f32 g.val),
      f32_to_u8 (u8_to_f32 b.val), f32_to_u8 (u8_to_f32 a.val)) = _
  rw [u8_roundtrip_chan r, u8_roundtrip_chan g, u8_roundtrip_chan b,
    u8_roundtrip_chan a]

/-- C7: for every blend strategy, factor and parameter bundle, `blend_with`
and `blend` return the alpha of the first operand unchanged; the alpha
channel is blended (with the same strategy and factor) only by the
`blend_alpha_with` / `blend_alpha` variants. -/
theorem blend_alpha_policy {P : Type} (blender : ℚ → ℚ → ℚ → P → ℚ) (dflt : P)
    (c other : ColorAlpha) (factor : ℚ) (params : P) :
    (c.blend_with blender other factor params).raw.w = c.raw.w
    ∧ (c.blend blender dflt other factor).raw.w = c.raw.w
    ∧ (c.blend_alpha_with blender other factor params).raw.w
        = blender c.raw.w other.raw.w factor params
    ∧ (c.blend_alpha blender dflt other factor).raw.w
        = blender c.raw.w other.raw.w factor dflt :=
  ⟨rfl, rfl, rfl, rfl⟩

/-- C8: `DynamicColorAlpha::convert` always returns a value whose runtime
space equals `dst_space` and whose alpha state equals `dst_alpha`; hence the
downcast of the converted value to that pair succeeds with its raw vector,
and `downcast_convert` (which reinterprets the converted raw vector directly)
is total and agrees with it — it cannot produce a mismatch error. -/
theorem downcast_convert_total {Space : Type} [DecidableEq Space]
    (k : Space → Space → Conversion) (c : DynamicColorAlpha Space)
    (ds : Space) (da : DynamicAlphaState) :
    (c.convert k ds da).space = ds
    ∧ (c.convert k ds da).alpha_state = da
    ∧ (c.convert k ds da).downcast ds da
        = .ok (ColorAlpha.from_raw (c.convert k ds da).raw)
    ∧ c.downcast_convert k ds da = ColorAlpha.from_raw (c.convert k ds da).raw := by
  refine ⟨rfl, rfl, ?_, rfl⟩
  have h1 : (c.convert k ds da).space = ds := rfl
  have h2 : (c.convert k ds da).alpha_state = da := rfl
  simp [DynamicColorAlpha.downcast, h1, h2]

/-- C8 witness: the theorem at a concrete input (space tags are natural
numbers, all stage functions the identity). -/
theorem downcast_convert_total_witness :
    (((DynamicColorAlpha.new ⟨2, 3, 4, 5⟩ (0 : ℕ) .Separate).convert
        (fun _ _ => idConversion) 1 .Premultiplied).space = 1)
    ∧ (((DynamicColorAlpha.new ⟨2, 3, 4, 5⟩ (0 : ℕ) .Separate).convert
        (fun _ _ => idConversion) 1 .Premultiplied).alpha_state = .Premultiplied)
    ∧ (((DynamicColorAlpha.new ⟨2, 3, 4, 5⟩ (0 : ℕ) .Separate).convert
        (fun _ _ => idConversion) 1 .Premultiplied).downcast 1 .Premultiplied
        = .ok (ColorAlpha.from_raw (((DynamicColorAlpha.new ⟨2, 3, 4, 5⟩ (0 : ℕ)
            .Separate).convert (fun _ _ => idConversion) 1 .Premultiplied)).raw))
    ∧ ((DynamicColorAlpha.new ⟨2, 3, 4, 5⟩ (0 : ℕ) .Separate).downcast_convert
        (fun _ _ => idConversion) 1 .Premultiplied
        = ColorAlpha.from_raw (((DynamicColorAlpha.new ⟨2, 3, 4, 5⟩ (0 : ℕ)
            .Separate).convert (fun _ _ => idConversion) 1 .Premultiplied)).raw) :=
  downcast_convert_total (fun _ _ => idConversion)
    (DynamicColorAlpha.new ⟨2, 3, 4, 5⟩ (0 : ℕ) .Separate) 1 .Premultiplied

/-- C9: when both the space and the alpha state mismatch, `downcast` reports
`MismatchedSpace` (the space check runs first); `MismatchedAlphaState` is
reported only when the space matches and the alpha state alone differs. -/
theorem downcast_space_precedence {Space : Type} [DecidableEq Space]
    (c : DynamicColorAlpha Space) (spc : Space) (a : DynamicAlphaState) :
    (c.space ≠ spc → c.alpha_state ≠ a →
      c.downcast spc a = .error (.MismatchedSpace c.space spc))
    ∧ (∀ f e, c.downcast spc a = .error (.MismatchedAlphaState f e) →
        c.space = spc ∧ c.alpha_state ≠ a) := by
  constructor
  · intro h _
    simp [DynamicColorAlpha.downcast, h]
  · intro f e h
    by_cases hs : c.space = spc
    · by_cases ha : c.alpha_state = a
      · simp [DynamicColorAlpha.downcast, hs, ha] at h
      · exact ⟨hs, ha⟩
    · simp [DynamicColorAlpha.downcast, hs] at h

/-- C9 witness: a double mismatch at concrete tags yields `MismatchedSpace`,
and a concrete `MismatchedAlphaState` outcome forces the space to match and
the alpha state to differ. -/
theorem downcast_space_precedence_witness :
    ((DynamicColorAlpha.new ⟨1, 2, 3, 4⟩ (0 : ℕ) .Separate).downcast 1 .Premultiplied
        = .error (.MismatchedSpace 0 1))
    ∧ ((0 : ℕ) = 0 ∧ DynamicAlphaState.Separate ≠ .Premultiplied) :=
  ⟨(downcast_space_precedence (DynamicColorAlpha.new ⟨1, 2, 3, 4⟩ (0 : ℕ) .Separate)
      1 .Premultiplied).1 (by decide) (by decide),
   (downcast_space_precedence (DynamicColorAlpha.new ⟨1, 2, 3, 4⟩ (0 : ℕ) .Separate)
      0 .Premultiplied).2 .Separate .Premultiplied rfl⟩

/-- C10: the typed `into_color` performs no alpha conversion when the space
tag equals its own linear space (it strips alpha directly), and premultiplies
(for a Separate value: multiplies each color channel by alpha) before
stripping only when the two differ; the dynamic `into_color` converts to the
Premultiplied state before stripping regardless of the space tag. -/
theorem into_color_premultiply_policy {Space : Type} [DecidableEq Space]
    (spc lin : Space) (sA : DynamicAlphaState) (c : ColorAlpha)
    (d : DynamicColorAlpha Space) :
    (spc = lin → ColorAlpha.into_color spc lin sA c = Color.from_raw c.raw.xyz)
    ∧ (spc ≠ lin → sA = .Separate →
        ColorAlpha.into_color spc lin sA c
          = Color.from_raw ⟨c.raw.x * c.raw.w, c.raw.y * c.raw.w, c.raw.z * c.raw.w⟩)
    ∧ (d.alpha_state = .Separate →
        d.into_color = DynamicColor.new
          ⟨d.raw.x * d.raw.w, d.raw.y * d.raw.w, d.raw.z * d.raw.w⟩ d.space .Display) := by
  refine ⟨fun h => ?_, fun h hA => ?_, fun hD => ?_⟩
  · simp [ColorAlpha.into_color, h]
  · subst hA
    simp [ColorAlpha.into_color, h, ColorAlpha.convert_alpha, alphaConvertRaw,
      Vec3.smul, Vec4.xyz, Vec3.extend, ColorAlpha.from_raw, Color.from_raw]
  · obtain ⟨⟨x, y, z, w⟩, sp, st⟩ := d
    simp only at hD
    subst hD
    rfl

/-- C10 witness: the three cases at concrete inputs (space tags are natural
numbers; value `(2, 3, 4, 5)` in the Separate state). -/
theorem into_color_premultiply_policy_witness :
    (ColorAlpha.into_color (0 : ℕ) 0 .Separate (ColorAlpha.from_raw ⟨2, 3, 4, 5⟩)
        = Color.from_raw ⟨2, 3, 4⟩)
    ∧ (ColorAlpha.into_color (0 : ℕ) 1 .Separate (ColorAlpha.from_raw ⟨2, 3, 4, 5⟩)
        = Color.from_raw ⟨2 * 5, 3 * 5, 4 * 5⟩)
    ∧ ((DynamicColorAlpha.new ⟨2, 3, 4, 5⟩ (7 : ℕ) .Separate).into_color
        = DynamicColor.new ⟨2 * 5, 3 * 5, 4 * 5⟩ 7 .Display) :=
  ⟨(into_color_premultiply_policy (0 : ℕ) 0 .Separate (ColorAlpha.from_raw ⟨2, 3, 4, 5⟩)
      (DynamicColorAlpha.new ⟨2, 3, 4, 5⟩ (7 : ℕ) .Separate)).1 rfl,
   (into_color_premultiply_policy (0 : ℕ) 1 .Separate (ColorAlpha.from_raw ⟨2, 3, 4, 5⟩)
      (DynamicColorAlpha.new ⟨2, 3, 4, 5⟩ (7 : ℕ) .Separate)).2.1 (by decide) rfl,
   (into_color_premultiply_policy (0 : ℕ) 1 .Separate (ColorAlpha.from_raw ⟨2, 3, 4, 5⟩)
      (DynamicColorAlpha.new ⟨2, 3, 4, 5⟩ (7 : ℕ) .Separate)).2.2 rfl⟩

/-- C6 witness: the round trip at the concrete byte 4-tuple (7, 0, 128, 255). -/
theorem from_u8_to_u8_roundtrip_witness :
    (ColorAlpha.from_u8 (7, 0, 128, 255)).to_u8 = (7, 0, 128, 255) :=
  from_u8_to_u8_roundtrip ⟨7, by decide⟩ ⟨0, by decide⟩ ⟨128, by decide⟩ ⟨255, by decide⟩
